import Mathlib

/-!
Verification of the rule-based natural-language-to-SQL compiler of ACE-SQL
(`app/services/query_generator.py`).  Questions and SQL are modelled as lists
of characters (`Str`); Python's `str.lower`, `in`, `str.replace`, `.join`,
`.strip` and the handful of concrete regular expressions used by the source
are embedded as executable Lean functions, and each method of
`QueryGenerator` that the claims touch is translated into a Lean definition
of the same name (modulo snake-case to camel-case where Lean requires it).
Python exceptions are modelled with `Except PyErr`.
-/

namespace AceSql

/-- Text, as Python strings restricted to the characters the program
manipulates: a list of characters. -/
abbrev Str : Type := List Char

/-- Convert a Lean string literal to `Str`. -/
def str (s : String) : Str := s.data

/-- ASCII lower-casing of one character, as Python `str.lower` acts on the
ASCII range (all inputs the program's dictionaries can match are ASCII):
`Char.toLower` shifts exactly the basic latin capitals by 32. -/
def pyLowerChar (c : Char) : Char := Char.toLower c

/-- Python `query.lower()`. -/
def pyLower (s : Str) : Str := s.map pyLowerChar

/-- Python's `\s` character class (ASCII part). -/
def isPySpace (c : Char) : Bool :=
  c = ' ' || c = '\t' || c = '\n' || c = '\x0d' || c = '\x0b' || c = '\x0c'

/-- Python `needle in haystack` on strings: contiguous-substring test. -/
def hasSub : Str → Str → Bool
  | t, [] => decide (t = [])
  | t, s@(_ :: rest) => t.isPrefixOf s || hasSub t rest

theorem hasSub_iff (t s : Str) : hasSub t s = true ↔ t <:+: s := by
  induction s with
  | nil => simp [hasSub]
  | cons a s ih =>
    simp [hasSub, ih, List.infix_cons_iff]

/-- Python `sep.join(parts)`. -/
def joinSep (sep : Str) : List Str → Str
  | [] => []
  | [x] => x
  | x :: y :: rest => x ++ sep ++ joinSep sep (y :: rest)

/-- Python `s.strip()`: whitespace removed from both ends. -/
def pyStrip (s : Str) : Str :=
  ((s.dropWhile isPySpace).reverse.dropWhile isPySpace).reverse

/-- Python `s.replace(target, repl)`: every non-overlapping occurrence of
`target`, scanning left to right, replaced by `repl`.  The program only ever
replaces nonempty targets; for an empty target this model leaves the string
unchanged.  Fuel (always called with `s.length + 1`) bounds the recursion:
each step consumes at least one character of `s`. -/
def replaceAllFuel (t r : Str) : Nat → Str → Str
  | 0, s => s
  | fuel + 1, s =>
    if t ≠ [] ∧ t.isPrefixOf s ∧ s ≠ [] then
      r ++ replaceAllFuel t r fuel (s.drop t.length)
    else
      match s with
      | [] => []
      | c :: cs => c :: replaceAllFuel t r fuel cs

/-- Python `s.replace(t, r)`. -/
def replaceAll (t r s : Str) : Str := replaceAllFuel t r (s.length + 1) s

/-! ## The static dictionaries of `QueryGenerator.__init__`

Python 3.7+ dictionaries iterate in insertion order, so each dictionary is
embedded as an association list in the order the source writes it. -/

/-- One entry of `self.metrics`: source field, aggregation function,
description. -/
structure MetricInfo where
  field : Str
  agg : Str
  descr : Str
deriving DecidableEq, Repr

/-- `self.metrics['sales']`. -/
def salesMetric : MetricInfo :=
  ⟨str "s.total_amount", str "SUM", str "total sales amount"⟩

/-- `self.metrics['revenue']`. -/
def revenueMetric : MetricInfo :=
  ⟨str "s.total_amount", str "SUM", str "total revenue"⟩

/-- `self.metrics['quantity']`. -/
def quantityMetric : MetricInfo :=
  ⟨str "s.quantity", str "SUM", str "total units sold"⟩

/-- `self.metrics` (lines 75-82), in insertion order. -/
def metricsDict : List (Str × MetricInfo) :=
  [ (str "sales", salesMetric),
    (str "revenue", revenueMetric),
    (str "quantity", quantityMetric),
    (str "average_sale", ⟨str "s.total_amount", str "AVG", str "average sale amount"⟩),
    (str "customer_count", ⟨str "c.id", str "COUNT DISTINCT", str "number of unique customers"⟩),
    (str "order_count", ⟨str "s.id", str "COUNT", str "number of orders"⟩) ]

/-- `self.aggregations` (lines 85-95), in insertion order. -/
def aggregationsDict : List (Str × Str) :=
  [ (str "total", str "SUM"), (str "average", str "AVG"),
    (str "count", str "COUNT"), (str "minimum", str "MIN"),
    (str "maximum", str "MAX"), (str "sum", str "SUM"),
    (str "avg", str "AVG"), (str "min", str "MIN"), (str "max", str "MAX") ]

/-- `self.time_patterns` (lines 98-107), in insertion order. -/
def timePatternsDict : List (Str × Str) :=
  [ (str "today", str "date(s.date) = date('now')"),
    (str "yesterday", str "date(s.date) = date('now', '-1 day')"),
    (str "this week", str "strftime('%Y-%W', s.date) = strftime('%Y-%W', 'now')"),
    (str "last week", str "strftime('%Y-%W', s.date) = strftime('%Y-%W', 'now', '-7 days')"),
    (str "this month", str "strftime('%Y-%m', s.date) = strftime('%Y-%m', 'now')"),
    (str "last month", str "strftime('%Y-%m', s.date) = strftime('%Y-%m', 'now', '-1 month')"),
    (str "this year", str "strftime('%Y', s.date) = strftime('%Y', 'now')"),
    (str "last year", str "strftime('%Y', s.date) = strftime('%Y', 'now', '-1 year')") ]

/-- `self.comparisons` (lines 110-123), in insertion order. -/
def comparisonsDict : List (Str × Str) :=
  [ (str "greater than", str ">"), (str "more than", str ">"),
    (str "higher than", str ">"), (str "less than", str "<"),
    (str "lower than", str "<"), (str "equal to", str "="),
    (str "equals", str "="), (str "not equal to", str "!="),
    (str "at least", str ">="), (str "greater than or equal to", str ">="),
    (str "at most", str "<="), (str "less than or equal to", str "<=") ]

/-- `self.sort_patterns` (lines 126-135), in insertion order: ascending,
descending, increasing, decreasing, highest, lowest, most, least. -/
def sortPatternsDict : List (Str × Str) :=
  [ (str "ascending", str "ASC"), (str "descending", str "DESC"),
    (str "increasing", str "ASC"), (str "decreasing", str "DESC"),
    (str "highest", str "DESC"), (str "lowest", str "ASC"),
    (str "most", str "DESC"), (str "least", str "ASC") ]

/-- The `unavailable_metrics` list of `_validate_query` (lines 163-170). -/
def unavailableMetricsList : List (Str × Str) :=
  [ (str "profit", str "We don't have profit data, but you can query sales or revenue"),
    (str "tax", str "Tax information is not available, but you can query total sales"),
    (str "discount", str "Discount data is not available, but you can query sales amounts"),
    (str "returns", str "Return data is not available, but you can query sales"),
    (str "shipping", str "Shipping data is not available"),
    (str "cost", str "Cost data is not available, but you can query sales price") ]

/-- The `unavailable_dimensions` list of `_validate_query` (lines 178-184). -/
def unavailableDimensionsList : List (Str × Str) :=
  [ (str "country", str "Country data is not available, but you can query by region"),
    (str "city", str "City data is not available, but you can query by region"),
    (str "state", str "State data is not available, but you can query by region"),
    (str "age", str "Customer age data is not available"),
    (str "gender", str "Customer gender data is not available") ]

/-- Both unavailable-term tables, scanned in the order the source scans
them: metrics first, then dimensions. -/
def unavailablePairs : List (Str × Str) :=
  unavailableMetricsList ++ unavailableDimensionsList

/-- The `alternatives` dictionary of `_get_alternative_term` (lines 214-226). -/
def alternativesDict : List (Str × Str) :=
  [ (str "profit", str "revenue"), (str "tax", str "total sales"),
    (str "discount", str "sales"), (str "returns", str "sales"),
    (str "shipping", str "sales"), (str "cost", str "price"),
    (str "country", str "region"), (str "city", str "region"),
    (str "state", str "region"), (str "age", str "customer"),
    (str "gender", str "customer") ]

/-- `_get_alternative_term`: `alternatives.get(invalid_term, 'sales')`. -/
def getAlternativeTerm (t : Str) : Str :=
  ((alternativesDict.find? (fun p => p.1 == t)).map Prod.snd).getD (str "sales")

/-! ## Models of the concrete regular expressions

Each regex the source uses is simple enough that greedy matching never needs
to backtrack (after a maximal `\s+` run the following literal or `\d` can
never match inside the run), so leftmost-match search with greedy repetition
is an exact model. -/

/-- Match `kw\s+(\d+)` anchored at the start of `s`; returns the captured
digit run (as used by the limit patterns `top\s+(\d+)` etc.). -/
def matchKwDigitsAt (kw s : Str) : Option Str :=
  if kw.isPrefixOf s then
    let r := s.drop kw.length
    let w := r.takeWhile isPySpace
    if w = [] then none
    else
      let d := (r.drop w.length).takeWhile Char.isDigit
      if d = [] then none else some d
  else none

/-- `re.search` of `kw\s+(\d+)`: leftmost position where it matches. -/
def searchKwDigits (kw : Str) : Str → Option Str
  | [] => none
  | s@(_ :: rest) => matchKwDigitsAt kw s <|> searchKwDigits kw rest

/-- Match `(\d+)\s+kw` anchored at the start of `s` (the limit patterns
`(\d+)\s+best` and `(\d+)\s+most`). -/
def matchDigitsKwAt (kw s : Str) : Option Str :=
  let d := s.takeWhile Char.isDigit
  if d = [] then none
  else
    let r := s.drop d.length
    let w := r.takeWhile isPySpace
    if w = [] then none
    else if kw.isPrefixOf (r.drop w.length) then some d else none

/-- `re.search` of `(\d+)\s+kw`: leftmost position where it matches. -/
def searchDigitsKw (kw : Str) : Str → Option Str
  | [] => none
  | s@(_ :: rest) => matchDigitsKwAt kw s <|> searchDigitsKw kw rest

/-- Match `(\d+(?:\.\d+)?)` anchored at the start of `s`: the captured
numeric literal and the number of characters it consumed. -/
def matchDecimalAt (s : Str) : Option (Str × Nat) :=
  let d := s.takeWhile Char.isDigit
  if d = [] then none
  else
    match s.drop d.length with
    | '.' :: r2 =>
      let f := r2.takeWhile Char.isDigit
      if f = [] then some (d, d.length)
      else some (d ++ '.' :: f, d.length + 1 + f.length)
    | _ => some (d, d.length)

/-- Match `kw\s+(\d+(?:\.\d+)?)` anchored at the start of `s`: the captured
value and the total length of the match (used by `re.finditer` in
`_extract_comparison`). -/
def matchCompAt (kw s : Str) : Option (Str × Nat) :=
  if kw.isPrefixOf s ∧ kw ≠ [] then
    let r := s.drop kw.length
    let w := r.takeWhile isPySpace
    if w = [] then none
    else
      match matchDecimalAt (r.drop w.length) with
      | some (v, n) => some (v, kw.length + w.length + n)
      | none => none
  else none

/-- All non-overlapping matches of `kw\s+(\d+(?:\.\d+)?)` scanning left to
right, continuing after the end of each match, as `re.finditer` yields them.
Fuel (always `s.length`) bounds the recursion; every step consumes at least
one character. -/
def findAllCompFuel (kw : Str) : Nat → Str → List Str
  | 0, _ => []
  | _, [] => []
  | fuel + 1, s@(_ :: rest) =>
    match matchCompAt kw s with
    | some (v, n) => v :: findAllCompFuel kw fuel (s.drop n)
    | none => findAllCompFuel kw fuel rest

/-- `[m.group(1) for m in re.finditer(kw + "\s+(\d+(?:\.\d+)?)", s)]`. -/
def findAllComp (kw s : Str) : List Str := findAllCompFuel kw s.length s

/-- Match `\d{4}-\d{2}-\d{2}` anchored at the start of `s`: the ten matched
characters and the rest of the input. -/
def matchDateAt (s : Str) : Option (Str × Str) :=
  let a := s.take 4
  if a.length = 4 ∧ a.all Char.isDigit then
    match s.drop 4 with
    | '-' :: r1 =>
      let b := r1.take 2
      if b.length = 2 ∧ b.all Char.isDigit then
        match r1.drop 2 with
        | '-' :: r2 =>
          let c := r2.take 2
          if c.length = 2 ∧ c.all Char.isDigit then
            some (a ++ '-' :: b ++ '-' :: c, r2.drop 2)
          else none
        | _ => none
      else none
    | _ => none
  else none

/-- Match `between\s+(\d{4}-\d{2}-\d{2})\s+and\s+(\d{4}-\d{2}-\d{2})`
anchored at the start of `s`: the two captured dates. -/
def matchBetweenAt (s : Str) : Option (Str × Str) :=
  if (str "between").isPrefixOf s then
    let r := s.drop 7
    let w := r.takeWhile isPySpace
    if w = [] then none
    else
      match matchDateAt (r.drop w.length) with
      | none => none
      | some (d1, r2) =>
        let w2 := r2.takeWhile isPySpace
        if w2 = [] then none
        else
          let r3 := r2.drop w2.length
          if (str "and").isPrefixOf r3 then
            let r4 := r3.drop 3
            let w3 := r4.takeWhile isPySpace
            if w3 = [] then none
            else
              match matchDateAt (r4.drop w3.length) with
              | none => none
              | some (d2, _) => some (d1, d2)
          else none
  else none

/-- `re.search` of the date-range pattern of `_extract_time_condition`. -/
def searchBetween : Str → Option (Str × Str)
  | [] => none
  | s@(_ :: rest) => matchBetweenAt s <|> searchBetween rest

/-! ## The intent extractors (`_extract_*`, lines 229-388)

`_extract_metric` and `_extract_dimension` are called with the already
lower-cased question and use it as is; every other extractor lower-cases its
argument itself, exactly as the source does. -/

/-- `_extract_metric` (lines 229-234): first metric name occurring as a
substring of the query, defaulting to `self.metrics['sales']`. -/
def extractMetric (query : Str) : MetricInfo :=
  ((metricsDict.find? (fun p => hasSub p.1 query)).map Prod.snd).getD salesMetric

/-- The `dimension_keywords` of `_extract_dimension` (lines 239-245):
keyword, field, required join table (`none` for date). -/
def dimensionKeywords : List (Str × Str × Option Str) :=
  [ (str "region", str "c.region", some (str "customers c")),
    (str "product", str "p.name", some (str "products p")),
    (str "category", str "p.category", some (str "products p")),
    (str "customer", str "c.name", some (str "customers c")),
    (str "date", str "s.date", none) ]

/-- `_extract_dimension` (lines 236-251): field and join of every keyword
occurring in the query. -/
def extractDimension (query : Str) : List (Str × Option Str) :=
  (dimensionKeywords.filter (fun p => hasSub p.1 query)).map (fun p => p.2)

/-- `_extract_aggregation` (lines 253-259): first aggregation keyword found,
defaulting to SUM. -/
def extractAggregation (query : Str) : Str :=
  let ql := pyLower query
  ((aggregationsDict.find? (fun p => hasSub p.1 ql)).map Prod.snd).getD (str "SUM")

/-- The BETWEEN predicate appended for an explicit date range
(line 275: `f"s.date BETWEEN '{start_date}' AND '{end_date}'"`). -/
def betweenPred (d1 d2 : Str) : Str :=
  str "s.date BETWEEN '" ++ d1 ++ str "' AND '" ++ d2 ++ str "'"

/-- `_extract_time_condition` (lines 261-277): the predicates of every named
period keyword found, in dictionary order, then a BETWEEN predicate if the
date-range regex matches, joined with " AND " (empty string when none). -/
def extractTimeCondition (query : Str) : Str :=
  let ql := pyLower query
  let conds := timePatternsDict.foldl
    (fun acc p => if hasSub p.1 ql then acc ++ [p.2] else acc) []
  let conds :=
    match searchBetween ql with
    | some (d1, d2) => conds ++ [betweenPred d1 d2]
    | none => conds
  if conds.isEmpty then [] else joinSep (str " AND ") conds

/-- The context-inferred comparison field (lines 291-297). -/
def comparisonField (ql : Str) : Str :=
  if hasSub (str "quantity") ql || hasSub (str "units") ql then str "s.quantity"
  else if hasSub (str "price") ql then str "p.price"
  else if hasSub (str "stock") ql then str "p.stock"
  else str "s.total_amount"

/-- `_extract_comparison` (lines 279-300): for each comparison phrase, every
`phrase\s+number` occurrence yields one condition `field op value`. -/
def extractComparison (query : Str) : List Str :=
  let ql := pyLower query
  comparisonsDict.foldl
    (fun acc p =>
      acc ++ (findAllComp p.1 ql).map
        (fun v => comparisonField ql ++ str " " ++ p.2 ++ str " " ++ v))
    []

/-- `_extract_grouping` (lines 302-343): explicit "by X"/"per X" phrases in
fixed priority order, then a looser keyword fallback; returns the GROUP BY
field (if any) and the space-joined join clauses. -/
def extractGrouping (query : Str) : Option Str × Str :=
  let ql := pyLower query
  if hasSub (str "by region") ql || hasSub (str "per region") ql then
    (some (str "c.region"), str "JOIN customers c ON s.customer_id = c.id")
  else if hasSub (str "by product") ql || hasSub (str "per product") ql
      || hasSub (str "by item") ql then
    (some (str "p.name"), str "JOIN products p ON s.product_id = p.id")
  else if hasSub (str "by category") ql || hasSub (str "per category") ql then
    (some (str "p.category"), str "JOIN products p ON s.product_id = p.id")
  else if hasSub (str "by customer") ql || hasSub (str "per customer") ql then
    (some (str "c.name"), str "JOIN customers c ON s.customer_id = c.id")
  else if hasSub (str "by date") ql || hasSub (str "per date") ql then
    (some (str "date(s.date)"), [])
  else if hasSub (str "by month") ql || hasSub (str "per month") ql then
    (some (str "strftime('%Y-%m', s.date)"), [])
  else if hasSub (str "by year") ql || hasSub (str "per year") ql then
    (some (str "strftime('%Y', s.date)"), [])
  else if hasSub (str "region") ql then
    (some (str "c.region"), str "JOIN customers c ON s.customer_id = c.id")
  else if hasSub (str "product") ql || hasSub (str "item") ql then
    (some (str "p.name"), str "JOIN products p ON s.product_id = p.id")
  else if hasSub (str "category") ql then
    (some (str "p.category"), str "JOIN products p ON s.product_id = p.id")
  else if hasSub (str "customer") ql then
    (some (str "c.name"), str "JOIN customers c ON s.customer_id = c.id")
  else (none, [])

/-- `_extract_sorting` (lines 345-363): first sort keyword in dictionary
order sets the direction (default DESC); the sort field is inferred from
quantity/units then average/avg, defaulting to "total". -/
def extractSorting (query : Str) : Str × Str :=
  let ql := pyLower query
  let direction :=
    ((sortPatternsDict.find? (fun p => hasSub p.1 ql)).map Prod.snd).getD (str "DESC")
  let sortField :=
    if hasSub (str "quantity") ql || hasSub (str "units") ql then str "quantity"
    else if hasSub (str "average") ql || hasSub (str "avg") ql then str "average"
    else str "total"
  (sortField, direction)

/-- One limit pattern: a keyword before the digits (`top\s+(\d+)`) or after
them (`(\d+)\s+best`). -/
inductive LimitPat where
  | kwNum (kw : Str)
  | numKw (kw : Str)
deriving DecidableEq

/-- `re.search` of one limit pattern. -/
def runLimitPat : LimitPat → Str → Option Str
  | .kwNum kw, s => searchKwDigits kw s
  | .numKw kw, s => searchDigitsKw kw s

/-- The `limit_patterns` list of `_extract_limit` (lines 370-377), in
order. -/
def limitPatterns : List LimitPat :=
  [ .kwNum (str "top"), .kwNum (str "first"), .numKw (str "best"),
    .numKw (str "most"), .kwNum (str "limit"), .kwNum (str "show") ]

/-- The bare keywords of `_extract_limit` (line 385). -/
def bareLimitKeywords : List Str :=
  [str "top", str "best", str "highest", str "lowest"]

/-- `_extract_limit` (lines 365-388): first numeric pattern match rendered
as `LIMIT N`; else `LIMIT 5` if a bare keyword is present; else empty. -/
def extractLimit (query : Str) : Str :=
  let ql := pyLower query
  match limitPatterns.findSome? (fun p => runLimitPat p ql) with
  | some n => str "LIMIT " ++ n
  | none =>
    if bareLimitKeywords.any (fun w => hasSub w ql) then str "LIMIT 5" else []

/-! ## `_validate_query` (lines 153-210) -/

/-- The `invalid_terms` local of `_validate_query`: every unavailable term
occurring in the lower-cased query, metrics before dimensions, each list in
source order. -/
def invalidTermsOf (query : Str) : List Str :=
  (unavailablePairs.filter (fun p => hasSub p.1 (pyLower query))).map Prod.fst

/-- The `suggestions` local of `_validate_query`: the hint of every matched
unavailable term, in the same order. -/
def suggestionsOf (query : Str) : List Str :=
  (unavailablePairs.filter (fun p => hasSub p.1 (pyLower query))).map Prod.snd

/-- The `alternative_query` local of `_validate_query` (lines 193-195): the
lower-cased query with each matched term replaced (all occurrences, in match
order) by its alternative from `_get_alternative_term`. -/
def alternativeQueryOf (query : Str) : Str :=
  (invalidTermsOf query).foldl
    (fun acc t => replaceAll t (getAlternativeTerm t) acc) (pyLower query)

/-- The suggestion message of `_validate_query` (line 197):
`f"Cannot process query with {terms}. {hints}. Try: '{alternative}'"`. -/
def suggestionMsgOf (query : Str) : Str :=
  str "Cannot process query with " ++
    (joinSep (str ", ") (invalidTermsOf query) ++
      (str ". " ++
        (joinSep (str " ") (suggestionsOf query) ++
          (str ". Try: '" ++ (alternativeQueryOf query ++ str "'")))))

/-- The components dictionary `_validate_query` builds for a valid query
(lines 200-208); every extractor receives the lower-cased query. -/
structure Components where
  metric : MetricInfo
  dimension : List (Str × Option Str)
  time_period : Str
  filters : List Str
  grouping : Option Str × Str
  sorting : Str × Str
  limit : Str
deriving DecidableEq

/-- `_validate_query` (lines 153-210): `(is_valid, suggestion, components)`;
an invalid query gets the suggestion message and an empty component dict. -/
def validateQuery (query : Str) : Bool × Str × Option Components :=
  if invalidTermsOf query ≠ [] then (false, suggestionMsgOf query, none)
  else
    let ql := pyLower query
    (true, [],
      some { metric := extractMetric ql, dimension := extractDimension ql,
             time_period := extractTimeCondition ql,
             filters := extractComparison ql, grouping := extractGrouping ql,
             sorting := extractSorting ql, limit := extractLimit ql })

/-! ## `_generate_sql_rule_based` (lines 487-531) -/

/-- A raised Python exception. -/
inductive PyErr where
  | valueError (msg : Str)
  | nameError (name : Str)
deriving DecidableEq

/-- The WHERE clause assembly of `_generate_sql_rule_based` (lines 506-511):
the time condition (when nonempty) followed by every comparison condition,
AND-joined behind `WHERE`; empty when there is nothing to filter. -/
def buildWhereClause (timeCondition : Str) (comparisons : List Str) : Str :=
  let whereConditions :=
    (if timeCondition ≠ [] then [timeCondition] else []) ++ comparisons
  if whereConditions ≠ [] then
    str "WHERE " ++ joinSep (str " AND ") whereConditions
  else []

/-- `_generate_sql_rule_based` (lines 487-531).  An invalid query raises
`ValueError(suggestion)` (line 496).  For a valid query, lines 499-511
compute the components and the WHERE clause — pure computations that cannot
raise — and then line 515, `agg_column = f"{agg_func}({metric})"`, reads the
name `metric`, which is bound nowhere in the function, the module or the
builtins: Python raises `NameError` there, before any SQL text is assembled,
for every valid query. -/
def generateSqlRuleBased (query : Str) : Except PyErr Str :=
  match validateQuery query with
  | (false, suggestion, _) => .error (.valueError suggestion)
  | (true, _, _) =>
    let _aggFunc := extractAggregation query
    let _grouping := extractGrouping query
    let timeCondition := extractTimeCondition query
    let comparisons := extractComparison query
    let _sorting := extractSorting query
    let _limit := extractLimit query
    let _whereClause := buildWhereClause timeCondition comparisons
    .error (.nameError (str "metric"))

/-! ## `explain_query` (lines 533-589)

Its regexes run with `re.IGNORECASE`; the matched literals are stored here
in lower case and compared through `pyLowerChar`.  The lazy groups `(.*?)`
stop at the first position where the rest of the pattern (or the lookahead)
matches; `.` does not match a newline.  `$` is modelled as end of input (the
SQL the pipeline would hand this function is whitespace-normalized and holds
no trailing newline). -/

/-- Case-insensitive literal match at the start of `s`. -/
def ciIsPre (pat s : Str) : Bool := (s.take pat.length).map pyLowerChar == pat

/-- The lazy group of `SELECT\s+(.*?)\s+FROM`: the shortest run of
non-newline characters whose end is followed by whitespace and `FROM`. -/
def lazyUntilWsFrom : Str → Option Str
  | [] => none
  | s@(c :: rest) =>
    let w := s.takeWhile isPySpace
    if w ≠ [] ∧ ciIsPre (str "from") (s.drop w.length) then some []
    else if c = '\n' then none
    else (lazyUntilWsFrom rest).map (c :: ·)

/-- Match `SELECT\s+(.*?)\s+FROM` anchored at the start of `s`. -/
def matchSelectAt (s : Str) : Option Str :=
  if ciIsPre (str "select") s then
    let r := s.drop 6
    let w := r.takeWhile isPySpace
    if w = [] then none else lazyUntilWsFrom (r.drop w.length)
  else none

/-- `re.search(r"SELECT\s+(.*?)\s+FROM", sql, re.IGNORECASE)`. -/
def searchSelectFrom : Str → Option Str
  | [] => none
  | s@(_ :: rest) => matchSelectAt s <|> searchSelectFrom rest

/-- The lazy group before the lookahead `(?=ORDER BY|LIMIT|$)`. -/
def lazyUntilOrderLimitEnd : Str → Option Str
  | [] => some []
  | s@(c :: rest) =>
    if ciIsPre (str "order by") s || ciIsPre (str "limit") s then some []
    else if c = '\n' then none
    else (lazyUntilOrderLimitEnd rest).map (c :: ·)

/-- Match `GROUP BY\s+(.*?)(?=ORDER BY|LIMIT|$)` anchored at the start. -/
def matchGroupByAt (s : Str) : Option Str :=
  if ciIsPre (str "group by") s then
    let r := s.drop 8
    let w := r.takeWhile isPySpace
    if w = [] then none else lazyUntilOrderLimitEnd (r.drop w.length)
  else none

/-- `re.search(r"GROUP BY\s+(.*?)(?=ORDER BY|LIMIT|$)", sql, re.IGNORECASE)`. -/
def searchGroupBy : Str → Option Str
  | [] => none
  | s@(_ :: rest) => matchGroupByAt s <|> searchGroupBy rest

/-- The lazy group before the lookahead `(?=GROUP BY|ORDER BY|LIMIT|$)`. -/
def lazyUntilGroupOrderLimitEnd : Str → Option Str
  | [] => some []
  | s@(c :: rest) =>
    if ciIsPre (str "group by") s || ciIsPre (str "order by") s
        || ciIsPre (str "limit") s then some []
    else if c = '\n' then none
    else (lazyUntilGroupOrderLimitEnd rest).map (c :: ·)

/-- Match `WHERE\s+(.*?)(?=GROUP BY|ORDER BY|LIMIT|$)` anchored at the
start. -/
def matchWhereAt (s : Str) : Option Str :=
  if ciIsPre (str "where") s then
    let r := s.drop 5
    let w := r.takeWhile isPySpace
    if w = [] then none else lazyUntilGroupOrderLimitEnd (r.drop w.length)
  else none

/-- `re.search(r"WHERE\s+(.*?)(?=GROUP BY|ORDER BY|LIMIT|$)", sql,
re.IGNORECASE)`. -/
def searchWhere : Str → Option Str
  | [] => none
  | s@(_ :: rest) => matchWhereAt s <|> searchWhere rest

/-- Match `LIMIT\s+(\d+)` (case-insensitive) anchored at the start. -/
def matchLimitNumAt (s : Str) : Option Str :=
  if ciIsPre (str "limit") s then
    let r := s.drop 5
    let w := r.takeWhile isPySpace
    if w = [] then none
    else
      let d := (r.drop w.length).takeWhile Char.isDigit
      if d = [] then none else some d
  else none

/-- `re.search(r"LIMIT\s+(\d+)", sql, re.IGNORECASE)`. -/
def searchLimitNum : Str → Option Str
  | [] => none
  | s@(_ :: rest) => matchLimitNumAt s <|> searchLimitNum rest

/-- Python `group_field.split('.')[-1]`. -/
def lastDotSegment (s : Str) : Str := (s.splitOn '.').getLastD []

/-- Lines 542-554 of `explain_query`: the aggregation verb phrase (at most
one part; empty when the SELECT regex fails or no aggregation literal occurs
in the captured column list). -/
def selectPart (sql : Str) : List Str :=
  match searchSelectFrom sql with
  | none => []
  | some cols =>
    let columns := pyStrip cols
    if hasSub (str "SUM") columns then [str "This query calculates the total"]
    else if hasSub (str "AVG") columns then [str "This query calculates the average"]
    else if hasSub (str "COUNT") columns then [str "This query counts"]
    else if hasSub (str "MIN") columns then [str "This query finds the minimum"]
    else if hasSub (str "MAX") columns then [str "This query finds the maximum"]
    else []

/-- Lines 557-561: the grouping phrase. -/
def groupPart (sql : Str) : List Str :=
  if hasSub (str "GROUP BY") sql then
    match searchGroupBy sql with
    | some g => [str "grouped by " ++ lastDotSegment (pyStrip g)]
    | none => []
  else []

/-- Lines 564-568: the filter phrase. -/
def wherePart (sql : Str) : List Str :=
  if hasSub (str "WHERE") sql then
    match searchWhere sql with
    | some conds => [str "filtered by " ++ pyStrip conds]
    | none => []
  else []

/-- Lines 571-575: the ordering phrase. -/
def orderPart (sql : Str) : List Str :=
  if hasSub (str "ORDER BY") sql then
    [if hasSub (str "DESC") sql then str "sorted in descending order"
     else str "sorted in ascending order"]
  else []

/-- Lines 578-581: the limit phrase. -/
def limitPart (sql : Str) : List Str :=
  if hasSub (str "LIMIT") sql then
    match searchLimitNum sql with
    | some n => [str "showing top " ++ n ++ str " results"]
    | none => []
  else []

/-- `explain_query` (lines 533-589): the collected parts space-joined and
terminated with a period.  No operation in the `try` block can raise on a
string input, so the `except` branch returning
"This query retrieves data from the database." is unreachable and does not
appear in the model. -/
def explainQuery (sql : Str) : Str :=
  joinSep (str " ")
    (selectPart sql ++ groupPart sql ++ wherePart sql ++ orderPart sql
      ++ limitPart sql) ++ str "."

/-- The rule-based pipeline end to end: validation, extraction and SQL
assembly through `_generate_sql_rule_based`, then the explanation of the
resulting SQL, exactly as the `/generate` route chains them when the AI path
is unavailable. -/
def runPipeline (query : Str) : Except PyErr (Str × Str) :=
  match generateSqlRuleBased query with
  | .error e => .error e
  | .ok sql => .ok (sql, explainQuery sql)

deriving instance DecidableEq for Except

/-! ## Helper lemmas about the text primitives -/

theorem infix_of_hasSub {t s : Str} (h : hasSub t s = true) : t <:+: s :=
  (hasSub_iff t s).mp h

theorem hasSub_of_infix {t s : Str} (h : t <:+: s) : hasSub t s = true :=
  (hasSub_iff t s).mpr h

theorem hasSub_trans {a b c : Str} (h1 : hasSub a b = true)
    (h2 : hasSub b c = true) : hasSub a c = true :=
  hasSub_of_infix ((infix_of_hasSub h1).trans (infix_of_hasSub h2))

theorem infix_append_of_left {t : Str} (a : Str) {b : Str} (h : t <:+: b) :
    t <:+: a ++ b :=
  h.trans (List.suffix_append a b).isInfix

theorem infix_append_of_right {t a : Str} (b : Str) (h : t <:+: a) :
    t <:+: a ++ b :=
  h.trans (List.prefix_append a b).isInfix

theorem infix_joinSep_of_mem {sep x : Str} {l : List Str} (h : x ∈ l) :
    x <:+: joinSep sep l := by
  induction l with
  | nil => cases h
  | cons y rest ih =>
    rcases List.mem_cons.mp h with rfl | hx
    · cases rest with
      | nil => exact List.infix_rfl
      | cons z more =>
        exact infix_append_of_right _
          (infix_append_of_right _ List.infix_rfl)
    · cases rest with
      | nil => cases hx
      | cons z more => exact infix_append_of_left (y ++ sep) (ih hx)

theorem joinSep_eq_nil_iff {sep : Str} {l : List Str}
    (h : ∀ x ∈ l, x ≠ []) : joinSep sep l = [] ↔ l = [] := by
  cases l with
  | nil => simp [joinSep]
  | cons x rest =>
    cases rest with
    | nil =>
      simpa [joinSep] using h x (List.mem_cons_self x [])
    | cons y more =>
      constructor
      · intro he
        exact absurd (List.append_eq_nil.mp
          (List.append_eq_nil.mp he).1).1 (h x (List.mem_cons_self _ _))
      · intro he
        cases he

/-- A loop that appends `f p` for every `p` passing `g` equals
filter-then-map. -/
theorem foldl_filter_map {α β : Type} (g : α → Bool) (f : α → β)
    (l : List α) (acc : List β) :
    l.foldl (fun acc p => if g p then acc ++ [f p] else acc) acc =
      acc ++ (l.filter g).map f := by
  induction l generalizing acc with
  | nil => simp
  | cons a rest ih =>
    by_cases hg : g a = true
    · simp [List.foldl_cons, hg, ih, List.filter_cons]
    · simp only [Bool.not_eq_true] at hg
      simp [List.foldl_cons, hg, ih, List.filter_cons]

/-! ## The claims -/

/-- C1: the claim states that every valid question with no time, filter,
grouping, sort or limit keyword and no recognized metric makes the
rule-based pipeline return
`SELECT 'Total' as period, SUM(s.total_amount) AS total FROM sales s ORDER
BY total DESC` rather than raise.  In the source this is unreachable:
line 515 (`agg_column = f"{agg_func}({metric})"`) reads the unbound name
`metric`, so `_generate_sql_rule_based` raises `NameError` for every valid
question, keyword-free or not, and never returns any SQL text. -/
theorem C1_every_valid_question_raises_nameError (q : Str)
    (h : (validateQuery q).1 = true) :
    generateSqlRuleBased q = .error (.nameError (str "metric")) := by
  unfold generateSqlRuleBased
  rcases hv : validateQuery q with ⟨b, s, c⟩
  rw [hv] at h
  simp only at h
  subst h
  rfl

/-- C1 witness: the keyword-free question "hello" is valid, and the
rule-based generator raises `NameError` on it instead of returning the SQL
text the claim names. -/
theorem C1_witness :
    (validateQuery (str "hello")).1 = true ∧
      generateSqlRuleBased (str "hello") = .error (.nameError (str "metric")) :=
  ⟨by decide, C1_every_valid_question_raises_nameError (str "hello") (by decide)⟩

/-- C2 counterexample: nothing can be extracted from the text "hello" (no
aggregation part, no GROUP BY, no WHERE, no ORDER BY, no LIMIT), yet
`explain_query` returns the one-character string "." — the join of zero
parts plus the terminating period — not the generic sentence the claim
names: that sentence lives in an `except` handler which string processing
never triggers. -/
theorem C2_counterexample :
    selectPart (str "hello") = [] ∧
      hasSub (str "GROUP BY") (str "hello") = false ∧
      hasSub (str "WHERE") (str "hello") = false ∧
      hasSub (str "ORDER BY") (str "hello") = false ∧
      hasSub (str "LIMIT") (str "hello") = false ∧
      explainQuery (str "hello") = str "." ∧
      explainQuery (str "hello") ≠
        str "This query retrieves data from the database." := by
  decide

/-- C2 amended: for every SQL text from which no part can be extracted (the
aggregation block yields nothing and none of the literals GROUP BY, WHERE,
ORDER BY, LIMIT occurs), `explain_query` returns the one-character string
".", the space-join of zero parts followed by the terminating period; the
generic sentence "This query retrieves data from the database." is produced
only by an exception handler that string inputs cannot reach. -/
theorem C2_no_parts_yields_dot (sql : Str)
    (h1 : selectPart sql = [])
    (h2 : hasSub (str "GROUP BY") sql = false)
    (h3 : hasSub (str "WHERE") sql = false)
    (h4 : hasSub (str "ORDER BY") sql = false)
    (h5 : hasSub (str "LIMIT") sql = false) :
    explainQuery sql = str "." := by
  simp only [explainQuery, groupPart, wherePart, orderPart, limitPart,
    h1, h2, h3, h4, h5]
  rfl

/-- C2 witness for the amended claim, at the part-free text "hello world". -/
theorem C2_no_parts_yields_dot_witness :
    selectPart (str "hello world") = [] ∧
      hasSub (str "GROUP BY") (str "hello world") = false ∧
      hasSub (str "WHERE") (str "hello world") = false ∧
      hasSub (str "ORDER BY") (str "hello world") = false ∧
      hasSub (str "LIMIT") (str "hello world") = false ∧
      explainQuery (str "hello world") = str "." :=
  ⟨by decide, by decide, by decide, by decide, by decide,
    C2_no_parts_yields_dot (str "hello world") (by decide) (by decide)
      (by decide) (by decide) (by decide)⟩

/-- C3 counterexample: the question "increasing highest" contains both
"highest" and "increasing", yet the extracted direction is not DESC — the
source iterates `sort_patterns` in insertion order (ascending, descending,
increasing, decreasing, highest, lowest, most, least), so "increasing"
is found first and the direction is ASC, refuting the claimed priority
order (which places "highest" before "increasing"). -/
theorem C3_counterexample :
    hasSub (str "highest") (pyLower (str "increasing highest")) = true ∧
      hasSub (str "increasing") (pyLower (str "increasing highest")) = true ∧
      (extractSorting (str "increasing highest")).2 ≠ str "DESC" := by
  decide

/-- C3 amended: the eight direction keywords are scanned in the insertion
order of `sort_patterns` — ascending, descending, increasing, decreasing,
highest, lowest, most, least — taking the first that occurs, with default
DESC; in particular a question containing "increasing" but neither
"ascending" nor "descending" gets direction ASC even when "highest" is also
present. -/
theorem C3_sort_direction_insertion_order (q : Str)
    (h1 : hasSub (str "increasing") (pyLower q) = true)
    (h2 : hasSub (str "ascending") (pyLower q) = false)
    (h3 : hasSub (str "descending") (pyLower q) = false) :
    (extractSorting q).2 = str "ASC" := by
  simp [extractSorting, sortPatternsDict, List.find?, h1, h2, h3]

/-- C3 witness for the amended claim: "show increasing quantity" contains
"increasing" and neither "ascending" nor "descending"; its direction is
ASC. -/
theorem C3_sort_direction_insertion_order_witness :
    hasSub (str "increasing") (pyLower (str "show increasing quantity")) = true ∧
      hasSub (str "ascending") (pyLower (str "show increasing quantity")) = false ∧
      hasSub (str "descending") (pyLower (str "show increasing quantity")) = false ∧
      (extractSorting (str "show increasing quantity")).2 = str "ASC" :=
  ⟨by decide, by decide, by decide,
    C3_sort_direction_insertion_order (str "show increasing quantity")
      (by decide) (by decide) (by decide)⟩

/-- C5: the claim describes the WHERE clause of the assembled SQL; no SQL is
ever assembled, because line 515 raises `NameError` first.  At the valid
question "sales this month greater than 100" the generator raises, while
the `where_clause` value lines 506-511 compute just before the failure does
have the claimed shape: the time-condition text first, the comparison
filter AND-joined behind it. -/
theorem C5_where_clause_built_but_unreachable :
    generateSqlRuleBased (str "sales this month greater than 100") =
        .error (.nameError (str "metric")) ∧
      buildWhereClause
          (extractTimeCondition (str "sales this month greater than 100"))
          (extractComparison (str "sales this month greater than 100")) =
        str "WHERE strftime('%Y-%m', s.date) = strftime('%Y-%m', 'now') AND s.total_amount > 100" := by
  constructor
  · rfl
  · rfl

/-- C8: the rule-based pipeline — validation, extraction, SQL assembly and
explanation — is a pure function of the question text: the source's
dictionaries are built once in `__init__` and only ever read, so two runs on
identical input produce identical results (including the identical raised
error, since assembly in fact raises for every valid question). -/
theorem C8_pipeline_deterministic (q1 q2 : Str) (h : q1 = q2) :
    runPipeline q1 = runPipeline q2 := by
  rw [h]

/-- C8 witness: the two runs on the literal text "total sales by region"
coincide. -/
theorem C8_pipeline_deterministic_witness :
    (str "total sales by region" = str "total sales by region") ∧
      runPipeline (str "total sales by region") =
        runPipeline (str "total sales by region") :=
  ⟨rfl, C8_pipeline_deterministic (str "total sales by region")
    (str "total sales by region") rfl⟩

/-- C9: comparison phrases are matched independently, so one surface phrase
can fire several patterns: in "sales greater than or equal to 5" the
substring "equal to 5" matches the `equal to` pattern and the whole phrase
matches `greater than or equal to`, yielding two conjoined filters on the
inferred (default) field — first `= 5`, then `>= 5`, in dictionary order. -/
theorem C9_overlapping_phrase_two_filters :
    extractComparison (str "sales greater than or equal to 5") =
      [str "s.total_amount = 5", str "s.total_amount >= 5"] := by
  decide

/-- C6: limit extraction tries the six numeric patterns in source order —
top N, first N, N best, N most, limit N, show N — rendering the first match
as `LIMIT N`; with no numeric match it falls back to `LIMIT 5` exactly when
one of the bare keywords top, best, highest, lowest occurs, and otherwise
returns the empty clause (second conjunct: the result is empty iff no
pattern and no bare keyword fires). -/
theorem C6_limit_extraction_order (q : Str) :
    (extractLimit q =
      match searchKwDigits (str "top") (pyLower q) <|>
            searchKwDigits (str "first") (pyLower q) <|>
            searchDigitsKw (str "best") (pyLower q) <|>
            searchDigitsKw (str "most") (pyLower q) <|>
            searchKwDigits (str "limit") (pyLower q) <|>
            searchKwDigits (str "show") (pyLower q) with
       | some n => str "LIMIT " ++ n
       | none =>
         if bareLimitKeywords.any (fun w => hasSub w (pyLower q)) then
           str "LIMIT 5"
         else []) ∧
    (extractLimit q = [] ↔
      limitPatterns.findSome? (fun p => runLimitPat p (pyLower q)) = none ∧
        bareLimitKeywords.any (fun w => hasSub w (pyLower q)) = false) := by
  constructor
  · unfold extractLimit
    simp only [limitPatterns, List.findSome?_cons, List.findSome?_nil,
      runLimitPat]
    rcases h1 : searchKwDigits (str "top") (pyLower q) with _ | n1 <;>
      simp only [h1, Option.none_orElse, Option.some_orElse]
    rcases h2 : searchKwDigits (str "first") (pyLower q) with _ | n2 <;>
      simp only [h2, Option.none_orElse, Option.some_orElse]
    rcases h3 : searchDigitsKw (str "best") (pyLower q) with _ | n3 <;>
      simp only [h3, Option.none_orElse, Option.some_orElse]
    rcases h4 : searchDigitsKw (str "most") (pyLower q) with _ | n4 <;>
      simp only [h4, Option.none_orElse, Option.some_orElse]
    rcases h5 : searchKwDigits (str "limit") (pyLower q) with _ | n5 <;>
      simp only [h5, Option.none_orElse, Option.some_orElse]
    rcases h6 : searchKwDigits (str "show") (pyLower q) with _ | n6 <;>
      simp only [h6, Option.none_orElse, Option.some_orElse]
  · unfold extractLimit
    rcases hf : limitPatterns.findSome? (fun p => runLimitPat p (pyLower q))
        with _ | n
    · by_cases hb : bareLimitKeywords.any (fun w => hasSub w (pyLower q)) = true
      · simp [hf, hb, str]
      · simp only [Bool.not_eq_true] at hb
        simp [hf, hb]
    · simp [hf, str]

/-- C7: the extracted time condition is the " AND "-join of the predicates
of every named period keyword occurring in the lower-cased question, in the
dictionary's insertion order (today, yesterday, this week, last week, this
month, last month, this year, last year), with the BETWEEN predicate on
s.date appended whenever the explicit date-range pattern matches; it is
empty exactly when no keyword occurs and the date-range pattern fails. -/
theorem C7_time_condition_joins_all_matches (q : Str) :
    (extractTimeCondition q =
      joinSep (str " AND ")
        ((timePatternsDict.filter
            (fun p => hasSub p.1 (pyLower q))).map Prod.snd ++
          match searchBetween (pyLower q) with
          | some (d1, d2) => [betweenPred d1 d2]
          | none => [])) ∧
    (extractTimeCondition q = [] ↔
      timePatternsDict.all (fun p => !hasSub p.1 (pyLower q)) = true ∧
        searchBetween (pyLower q) = none) := by
  have hfold := foldl_filter_map
    (fun p : Str × Str => hasSub p.1 (pyLower q)) Prod.snd timePatternsDict []
  have hne : ∀ x ∈ (timePatternsDict.filter
      (fun p => hasSub p.1 (pyLower q))).map Prod.snd ++
        (match searchBetween (pyLower q) with
         | some (d1, d2) => [betweenPred d1 d2]
         | none => []), x ≠ [] := by
    have hdict : ∀ p ∈ timePatternsDict, (Prod.snd p : Str) ≠ [] := by decide
    intro x hx
    rcases List.mem_append.mp hx with hx | hx
    · rcases List.mem_map.mp hx with ⟨p, hp, rfl⟩
      exact hdict p (List.mem_of_mem_filter hp)
    · rcases hb : searchBetween (pyLower q) with _ | ⟨d1, d2⟩ <;>
        rw [hb] at hx
      · cases hx
      · rcases List.mem_singleton.mp hx with rfl
        simp [betweenPred, str]
  have hmain : extractTimeCondition q =
      joinSep (str " AND ")
        ((timePatternsDict.filter
            (fun p => hasSub p.1 (pyLower q))).map Prod.snd ++
          match searchBetween (pyLower q) with
          | some (d1, d2) => [betweenPred d1 d2]
          | none => []) := by
    simp only [extractTimeCondition]
    rw [hfold, List.nil_append]
    rcases hb : searchBetween (pyLower q) with _ | ⟨d1, d2⟩
    · by_cases he : (timePatternsDict.filter
          (fun p => hasSub p.1 (pyLower q))).map Prod.snd = []
      · simp [he, joinSep]
      · simp [he, List.isEmpty_iff]
    · simp [List.isEmpty_iff]
  refine ⟨hmain, ?_⟩
  rw [hmain, joinSep_eq_nil_iff hne]
  rcases hb : searchBetween (pyLower q) with _ | ⟨d1, d2⟩
  · simp only [List.append_nil, List.map_eq_nil_iff, List.filter_eq_nil_iff]
    simp [List.all_eq_true]
  · simp

/-- A valid codepoint survives the round trip through `Char.ofNat`. -/
theorem toNat_ofNat_valid {n : Nat} (h : n.isValidChar) :
    (Char.ofNat n).toNat = n := by
  unfold Char.ofNat
  rw [dif_pos h]
  simp [Char.ofNatAux, Char.toNat, UInt32.toNat]

/-- Lower-casing maps no character to an underscore except the underscore
itself. -/
theorem pyLowerChar_eq_underscore {c : Char} (h : pyLowerChar c = '_') :
    c = '_' := by
  unfold pyLowerChar at h
  simp only [Char.toLower] at h
  split_ifs at h with hr
  · exfalso
    have hv : (c.toNat + 32).isValidChar := Or.inl (by omega)
    have h95 := congrArg Char.toNat h
    rw [toNat_ofNat_valid hv] at h95
    have hlit : Char.toNat '_' = 95 := by decide
    rw [hlit] at h95
    omega
  · exact h

/-- C10: metric names are matched as literal substrings of the lower-cased
question, so a question with no underscore can never select the metrics
average_sale, customer_count or order_count: it resolves to the sales,
revenue or quantity metric (the default being sales), all of which carry
the SUM aggregation. -/
theorem C10_no_underscore_never_selects_underscore_metrics (q : Str)
    (h : ('_' : Char) ∉ q) :
    (extractMetric (pyLower q) = salesMetric ∨
        extractMetric (pyLower q) = revenueMetric ∨
        extractMetric (pyLower q) = quantityMetric) ∧
      (extractMetric (pyLower q)).agg = str "SUM" := by
  have hl : ('_' : Char) ∉ pyLower q := by
    intro hc
    rcases List.mem_map.mp hc with ⟨c, hcq, hceq⟩
    exact h (pyLowerChar_eq_underscore hceq ▸ hcq)
  have hstop : ∀ t : Str, ('_' : Char) ∈ t → hasSub t (pyLower q) = false := by
    intro t ht
    by_contra hcon
    rw [Bool.not_eq_false] at hcon
    exact hl ((infix_of_hasSub hcon).subset ht)
  have h4 := hstop (str "average_sale") (by decide)
  have h5 := hstop (str "customer_count") (by decide)
  have h6 := hstop (str "order_count") (by decide)
  unfold extractMetric metricsDict
  cases h1 : hasSub (str "sales") (pyLower q) <;>
    cases h2 : hasSub (str "revenue") (pyLower q) <;>
      cases h3 : hasSub (str "quantity") (pyLower q) <;>
        simp [List.find?, h1, h2, h3, h4, h5, h6, salesMetric, revenueMetric,
          quantityMetric]

/-- C4: a question containing an unavailable term is rejected: validation
returns invalid with the suggestion message, the message lists every
matched term and every matched term's substitution hint, and it quotes the
rewritten alternative question; when the question contains "profit" in
particular, the message mentions "revenue" and the alternative question is
built by first replacing every occurrence of "profit" with "revenue" and
then applying the remaining matched terms' replacements. -/
theorem C4_unavailable_term_rejected (q : Str) (h : invalidTermsOf q ≠ []) :
    (validateQuery q).1 = false ∧
      (validateQuery q).2.1 = suggestionMsgOf q ∧
      ((invalidTermsOf q).all fun t => hasSub t (suggestionMsgOf q)) = true ∧
      ((suggestionsOf q).all fun s => hasSub s (suggestionMsgOf q)) = true ∧
      hasSub (str ". Try: '" ++ (alternativeQueryOf q ++ str "'"))
        (suggestionMsgOf q) = true ∧
      (hasSub (str "profit") (pyLower q) = true →
        hasSub (str "revenue") (suggestionMsgOf q) = true ∧
          (invalidTermsOf q).head? = some (str "profit") ∧
          alternativeQueryOf q =
            (invalidTermsOf q).tail.foldl
              (fun acc t => replaceAll t (getAlternativeTerm t) acc)
              (replaceAll (str "profit") (str "revenue") (pyLower q))) := by
  have hvalid : validateQuery q = (false, suggestionMsgOf q, none) := by
    unfold validateQuery
    rw [if_pos h]
  have hterms : ((invalidTermsOf q).all
      fun t => hasSub t (suggestionMsgOf q)) = true := by
    rw [List.all_eq_true]
    intro t ht
    unfold suggestionMsgOf
    exact hasSub_of_infix (infix_append_of_left _
      (infix_append_of_right _ (infix_joinSep_of_mem ht)))
  have hsuggs : ((suggestionsOf q).all
      fun s => hasSub s (suggestionMsgOf q)) = true := by
    rw [List.all_eq_true]
    intro s hs
    unfold suggestionMsgOf
    exact hasSub_of_infix (infix_append_of_left _ (infix_append_of_left _
      (infix_append_of_left _
        (infix_append_of_right _ (infix_joinSep_of_mem hs)))))
  have htry : hasSub (str ". Try: '" ++ (alternativeQueryOf q ++ str "'"))
      (suggestionMsgOf q) = true := by
    unfold suggestionMsgOf
    exact hasSub_of_infix (infix_append_of_left _ (infix_append_of_left _
      (infix_append_of_left _ (infix_append_of_left _ List.infix_rfl))))
  refine ⟨by rw [hvalid], by rw [hvalid], hterms, hsuggs, htry, ?_⟩
  intro hp
  have hpair : (str "profit",
      str "We don't have profit data, but you can query sales or revenue") ∈
        unavailablePairs.filter (fun p => hasSub p.1 (pyLower q)) := by
    rw [List.mem_filter]
    exact ⟨by decide, hp⟩
  have hhintmem :
      str "We don't have profit data, but you can query sales or revenue" ∈
        suggestionsOf q :=
    List.mem_map_of_mem Prod.snd hpair
  have hrev : hasSub (str "revenue") (suggestionMsgOf q) = true := by
    have hinmsg := (List.all_eq_true.mp hsuggs) _ hhintmem
    exact hasSub_trans (by decide) hinmsg
  have hhead : (invalidTermsOf q).head? = some (str "profit") := by
    unfold invalidTermsOf unavailablePairs unavailableMetricsList
      unavailableDimensionsList
    simp [List.filter_cons, hp]
  rcases hl : invalidTermsOf q with _ | ⟨t0, rest⟩
  · rw [hl] at hhead
    cases hhead
  · rw [hl] at hhead
    have ht0 : t0 = str "profit" := by
      simpa using hhead
    subst ht0
    refine ⟨hrev, by simp, ?_⟩
    unfold alternativeQueryOf
    rw [hl]
    simp only [List.foldl_cons, List.tail_cons]
    have hga : getAlternativeTerm (str "profit") = str "revenue" := by decide
    rw [hga]

/-- C4 witness: "show profit" contains the unavailable term "profit"; the
validator rejects it, the message lists the term and its hint, mentions
"revenue", and the alternative question applies the profit-to-revenue
replacement. -/
theorem C4_witness :
    invalidTermsOf (str "show profit") ≠ [] ∧
      ((validateQuery (str "show profit")).1 = false ∧
        (validateQuery (str "show profit")).2.1 =
          suggestionMsgOf (str "show profit") ∧
        ((invalidTermsOf (str "show profit")).all
          fun t => hasSub t (suggestionMsgOf (str "show profit"))) = true ∧
        ((suggestionsOf (str "show profit")).all
          fun s => hasSub s (suggestionMsgOf (str "show profit"))) = true ∧
        hasSub (str ". Try: '" ++
            (alternativeQueryOf (str "show profit") ++ str "'"))
          (suggestionMsgOf (str "show profit")) = true ∧
        (hasSub (str "profit") (pyLower (str "show profit")) = true →
          hasSub (str "revenue") (suggestionMsgOf (str "show profit")) = true ∧
            (invalidTermsOf (str "show profit")).head? = some (str "profit") ∧
            alternativeQueryOf (str "show profit") =
              (invalidTermsOf (str "show profit")).tail.foldl
                (fun acc t => replaceAll t (getAlternativeTerm t) acc)
                (replaceAll (str "profit") (str "revenue")
                  (pyLower (str "show profit"))))) :=
  ⟨by decide, C4_unavailable_term_rejected (str "show profit") (by decide)⟩

/-- C10 witness: "average sale amount" has no underscore; its metric is the
default sales metric, whose aggregation is SUM (not AVG). -/
theorem C10_witness :
    ('_' : Char) ∉ str "average sale amount" ∧
      ((extractMetric (pyLower (str "average sale amount")) = salesMetric ∨
          extractMetric (pyLower (str "average sale amount")) = revenueMetric ∨
          extractMetric (pyLower (str "average sale amount")) = quantityMetric) ∧
        (extractMetric (pyLower (str "average sale amount"))).agg = str "SUM") :=
  ⟨by decide,
    C10_no_underscore_never_selects_underscore_metrics
      (str "average sale amount") (by decide)⟩

end AceSql
